import Mathlib

/-!
Shallow embedding of `invenio_rdm_records/services/access/service.py`
(`RecordAccessService`): secret-link lifecycle, access grants, and
access-request workflows.  Timestamps are modelled as `Int` (UTC-naive
instants, as the Python code normalises every datetime to UTC and strips
the timezone); "now" (`datetime.utcnow()`) is an explicit parameter.
Dictionaries with optional fields are modelled with `Option`; an
explicitly-null JSON field present in a payload is `some none` in a field
of type `Option (Option Int)`, while an absent field is `none`.
-/

namespace RDMAccess

/-- The `field_name`/message pairs of the `ValidationError`s raised by the
access service (`marshmallow.exceptions.ValidationError`). -/
inductive ValidationKind where
  /-- "Expiration date must be set to the future" (field `expires_at`). -/
  | mustBeFuture
  /-- "Cannot postpone expiration of links" (field `expires_at`). -/
  | cannotPostpone
  /-- "An access permission level is required" (field `permission`). -/
  | permissionRequired
  /-- "Invalid access permission level." (field `permission`). -/
  | invalidPermissionLevel
  /-- "Could not find the specified subject." (field `subject.id`). -/
  | subjectNotFound
  /-- a schema-level load failure (missing required field). -/
  | schemaLoadFailure
deriving DecidableEq, Repr

/-- The error taxonomy of the access service: `ValidationError`,
`LookupError` raised explicitly (not-found paths), `IndexError` coming from
raw sequence subscripting, `PermissionDeniedError`, and
`DuplicateAccessRequestError` carrying the colliding request ids. -/
inductive AccessError where
  | validation (kind : ValidationKind)
  | lookupError (what : String)
  | indexError
  | permissionDenied
  | duplicateAccessRequest (ids : List String)
deriving DecidableEq, Repr

/-- A secret link as stored on `parent.access.links` (resolved form).
`expires_at` is a nullable UTC-naive timestamp.  The `extra_data` map is
baked into the signed token at creation and never touched by any service
operation modelled here, so it is omitted. -/
structure SecretLink where
  linkId : String
  permission_level : String
  origin : Option String
  description : String
  expires_at : Option Int
deriving DecidableEq, Repr

/-- An access grant as stored on `parent.access.grants`. -/
structure AccessGrant where
  subject_type : String
  subject_id : String
  permission : String
  origin : Option String
deriving DecidableEq, Repr

/-- The parent record's access information: the ordered sequence of secret
links (`parent.access.links`) and the ordered sequence of access grants
(`parent.access.grants`). -/
structure Parent where
  links : List SecretLink
  grants : List AccessGrant
deriving DecidableEq, Repr

/-- `RecordAccessService._validate_secret_link_expires_at`.

Python truthiness: a `datetime` value is always truthy and `None` falsy, so
`expires_at` (after schema load a `datetime | None`) is truthy exactly when
it `isSome`.  The `arrow.get(...).to("utc").datetime.replace(tzinfo=None)`
normalisation is the identity on our already-UTC-naive `Int` instants. -/
def validate_secret_link_expires_at (now : Int) (expires_at : Option Int)
    (is_specified : Bool) (secret_link : Option SecretLink) :
    Except ValidationKind (Option Int) :=
  -- `if expires_at and is_specified: if expires_at < datetime.utcnow(): raise`
  if expires_at.isSome && is_specified && decide (expires_at.getD 0 < now) then
    .error .mustBeFuture
  else
    match secret_link with
    | none => .ok expires_at
    | some link =>
      -- explicitly setting `expires_at = None` on a link that had a value
      let introduces_expiration :=
        is_specified && expires_at.isNone && link.expires_at.isSome
      -- a specified value strictly later than the link's current expiration
      let extends_existing_expiration :=
        expires_at.isSome && link.expires_at.isSome &&
          decide (link.expires_at.getD 0 < expires_at.getD 0)
      let increases_expiration := introduces_expiration || extends_existing_expiration
      if increases_expiration then
        .error .cannotPostpone
      else if expires_at.isSome && decide (expires_at.getD 0 < now) then
        .error .mustBeFuture
      else
        .ok expires_at

/-- The fetch step shared by `update_secret_link` / `read_secret_link` /
`delete_secret_link`: `link_ids.index(link_id)` after the membership check,
i.e. the first link whose `link_id` matches, together with its position. -/
def resolve_link (parent : Parent) (link_id : String) :
    Option (Nat × SecretLink) :=
  match parent.links.findIdx? (fun l => l.linkId == link_id) with
  | none => none
  | some link_idx => (parent.links.get? link_idx).map (fun l => (link_idx, l))

/-- The validated payload of `update_secret_link` (output of
`schema_secret_link.load`).  `expires_at = none` means the field was absent
from the data, `some none` that it was explicitly null, `some (some t)`
that it carried the instant `t`. -/
structure SecretLinkUpdatePayload where
  permission : Option String
  expires_at : Option (Option Int)
  description : Option String
deriving DecidableEq, Repr

/-- `RecordAccessService.update_secret_link` on a resolved parent: fetch the
link by id (`LookupError` when absent), validate the expiration against the
existing link, then update `expires_at`, `permission_level` (Python `or`:
a `None` — or empty — new value keeps the old one) and `description`
(`data.get("description", link.description)`). -/
def update_secret_link (now : Int) (parent : Parent) (link_id : String)
    (data : SecretLinkUpdatePayload) :
    Except AccessError (Parent × SecretLink) :=
  match resolve_link parent link_id with
  | none => .error (.lookupError link_id)
  | some (link_idx, link) =>
    match validate_secret_link_expires_at now (data.expires_at.getD none)
        data.expires_at.isSome (some link) with
    | .error kind => .error (.validation kind)
    | .ok expires_at =>
      let link' : SecretLink :=
        { link with
          -- `link.expires_at = expires_at or link.expires_at`
          expires_at :=
            match expires_at with
            | some t => some t
            | none => link.expires_at
          -- `link.permission_level = permission or link.permission_level`
          permission_level :=
            match data.permission with
            | some p => if p == "" then link.permission_level else p
            | none => link.permission_level
          -- `link.description = data.get("description", link.description)`
          description := data.description.getD link.description }
      .ok ({ parent with links := parent.links.set link_idx link' }, link')

/-- The operations a mutating service call registers on the unit of work
(`uow.register(RecordCommitOp(...))`) and the reindex trigger
(`_index_related_records`).  They take effect only when the whole unit of
work commits; an exception raised earlier leaves the list empty. -/
inductive UowOp where
  | commitParent
  | commitRecord
  | indexRelatedRecords
deriving DecidableEq, Repr

/-- The validated payload of `create_secret_link`. -/
structure SecretLinkCreatePayload where
  permission : Option String
  origin : Option String
  description : Option String
  expires_at : Option Int
deriving DecidableEq, Repr

/-- Modelled from the spec: `parent.access.links.create` (the secret-link
collection's constructor, which lives outside the access-service file)
"constructs a SecretLink on the parent's link collection; fails with an
invalid-permission-level error if the requested level is not in the allowed
set", and "all errors raised synchronously abort the unit of work before
commit (no partial persistence)" — so on `InvalidPermissionLevelError`
(here `.error ()`) no link is appended.  `new_link_id` stands for the
freshly generated opaque token id. -/
def links_create (allowed_levels : List String) (new_link_id : String)
    (permission_level : String) (origin : Option String)
    (description : String) (expires_at : Option Int)
    (links : List SecretLink) :
    Except Unit (List SecretLink × SecretLink) :=
  if allowed_levels.contains permission_level then
    let link : SecretLink :=
      { linkId := new_link_id
        permission_level := permission_level
        origin := origin
        description := description
        expires_at := expires_at }
    .ok (links ++ [link], link)
  else
    .error ()

/-- Decidable equality for `Except`, needed to derive it for the outcome
records below. -/
def exceptDecEq {ε α : Type} [DecidableEq ε] [DecidableEq α] :
    (a b : Except ε α) → Decidable (a = b)
  | .ok x, .ok y =>
    if h : x = y then .isTrue (by rw [h])
    else .isFalse (by intro hc; cases hc; exact h rfl)
  | .ok _, .error _ => .isFalse (by intro hc; cases hc)
  | .error _, .ok _ => .isFalse (by intro hc; cases hc)
  | .error e, .error f =>
    if h : e = f then .isTrue (by rw [h])
    else .isFalse (by intro hc; cases hc; exact h rfl)

instance {ε α : Type} [DecidableEq ε] [DecidableEq α] :
    DecidableEq (Except ε α) := exceptDecEq

/-- Outcome of `create_secret_link`: the parent's final state, the commit /
reindex operations registered on the unit of work, and the result.  When an
exception is raised the parent is unchanged and no operation was
registered. -/
structure CreateSecretLinkOutcome where
  parent : Parent
  uow : List UowOp
  result : Except AccessError SecretLink
deriving DecidableEq, Repr

/-- `RecordAccessService.create_secret_link`: validate `expires_at`
(defaults `is_specified=True`, `secret_link=None`), require a `"permission"`
key in the validated data, create the link (re-raising
`InvalidPermissionLevelError` as a `ValidationError`), then register the
parent commit, the record commit (when a record, not only a draft, exists)
and the reindex of related records. -/
def create_secret_link (now : Int) (parent : Parent) (has_record : Bool)
    (allowed_levels : List String) (new_link_id : String)
    (data : SecretLinkCreatePayload) : CreateSecretLinkOutcome :=
  match validate_secret_link_expires_at now data.expires_at true none with
  | .error kind => ⟨parent, [], .error (.validation kind)⟩
  | .ok expires_at =>
    match data.permission with
    | none => ⟨parent, [], .error (.validation .permissionRequired)⟩
    | some permission =>
      match links_create allowed_levels new_link_id permission data.origin
          (data.description.getD "") expires_at parent.links with
      | .error () => ⟨parent, [], .error (.validation .invalidPermissionLevel)⟩
      | .ok (links', link) =>
        ⟨{ parent with links := links' },
          [.commitParent] ++ (if has_record then [.commitRecord] else [])
            ++ [.indexRelatedRecords],
          .ok link⟩

/-- Modelled from the spec: `parent.access.grants` (the `Grants` collection
class lives outside the access-service file) is "an explicit ordered,
index-addressable sequence" with host-language list subscript semantics:
a non-negative index addresses that position, a negative index `i` with
`-len ≤ i < 0` addresses position `len + i`, and any other index fails with
an index error. -/
def pyGet {α : Type} (xs : List α) (i : Int) : Except AccessError α :=
  let n : Int := xs.length
  if 0 ≤ i ∧ i < n then
    match xs.get? i.toNat with
    | some x => .ok x
    | none => .error .indexError
  else if -n ≤ i ∧ i < 0 then
    match xs.get? (n + i).toNat with
    | some x => .ok x
    | none => .error .indexError
  else
    .error .indexError

/-- Modelled from the spec: item assignment `parent.access.grants[i] = g`
on the ordered grant sequence, with the same subscript semantics as
`pyGet`. -/
def pySet {α : Type} (xs : List α) (i : Int) (x : α) :
    Except AccessError (List α) :=
  let n : Int := xs.length
  if 0 ≤ i ∧ i < n then
    .ok (xs.set i.toNat x)
  else if -n ≤ i ∧ i < 0 then
    .ok (xs.set (n + i).toNat x)
  else
    .error .indexError

/-- `RecordAccessService.read_grant`: explicit bounds check
`0 <= grant_id < len(parent.access.grants)` (else `LookupError`), then raw
subscripting. -/
def read_grant (parent : Parent) (grant_id : Int) :
    Except AccessError AccessGrant :=
  if 0 ≤ grant_id ∧ grant_id < (parent.grants.length : Int) then
    pyGet parent.grants grant_id
  else
    .error (.lookupError (toString grant_id))

/-- `RecordAccessService.delete_grant`: the same explicit bounds check as
`read_grant`, then `parent.access.grants.pop(grant_id)` which removes the
element at that position, shifting the trailing ones down. -/
def delete_grant (parent : Parent) (grant_id : Int) :
    Except AccessError Parent :=
  if 0 ≤ grant_id ∧ grant_id < (parent.grants.length : Int) then
    .ok { parent with grants := parent.grants.eraseIdx grant_id.toNat }
  else
    .error (.lookupError (toString grant_id))

/-- The (possibly partial) payload of `update_grant` before schema
validation: `subject.type`, `subject.id`, `permission`, `origin`, each
possibly absent. -/
structure GrantPayload where
  subject_type : Option String
  subject_id : Option String
  permission : Option String
  origin : Option String
deriving DecidableEq, Repr

/-- Modelled from the spec: `schema_grant.load` ("validates payload
(subject.type, subject.id, permission, optional origin)"; the schema class
lives outside the access-service file) — the three non-optional fields must
be present, `origin` is passed through. -/
def schema_grant_load (data : GrantPayload) :
    Except AccessError (String × String × String × Option String) :=
  match data.subject_type, data.subject_id, data.permission with
  | some st, some sid, some p => .ok (st, sid, p, data.origin)
  | _, _, _ => .error (.validation .schemaLoadFailure)

/-- `RecordAccessService.update_grant`.  Unlike `read_grant` and
`delete_grant` there is no explicit bounds check: `old_grant =
parent.access.grants[grant_id]` and the final
`parent.access.grants[grant_id] = new_grant` use raw sequence
subscripting.  With `patch=True` (the `partial` keyword) unspecified fields
are merged from the old grant at that index; then the schema revalidates,
`grant_cls.create(..., resolve_subject=True)` builds a brand-new grant
(raising `LookupError` → "subject not found" `ValidationError` when the
subject cannot be resolved — `subject_exists` is the subject-resolution
oracle), and the new grant replaces the old one at the same index. -/
def update_grant (parent : Parent) (grant_id : Int) (data : GrantPayload)
    (patch : Bool) (subject_exists : String → String → Bool) :
    Except AccessError (Parent × AccessGrant) :=
  match pyGet parent.grants grant_id with
  | .error e => .error e
  | .ok old_grant =>
    let data :=
      if patch then
        { subject_type := some (data.subject_type.getD old_grant.subject_type)
          subject_id := some (data.subject_id.getD old_grant.subject_id)
          permission := some (data.permission.getD old_grant.permission)
          origin :=
            match data.origin with
            | some o => some o
            | none => old_grant.origin : GrantPayload }
      else data
    match schema_grant_load data with
    | .error e => .error e
    | .ok (subject_type, subject_id, permission, origin) =>
      if subject_exists subject_type subject_id then
        let new_grant : AccessGrant :=
          { subject_type := subject_type
            subject_id := subject_id
            permission := permission
            origin := origin }
        match pySet parent.grants grant_id new_grant with
        | .error e => .error e
        | .ok grants' => .ok ({ parent with grants := grants' }, new_grant)
      else
        .error (.validation .subjectNotFound)

/-- The `created_by` field of a stored request: the structural dictionary
match of the duplicate-detection query compares `{"user": str(identity.id)}`
(authenticated creator) or `{"email": ...}` (guest creator) for equality, so
the two shapes never collide. -/
inductive Creator where
  | user (id : String)
  | email (addr : String)
deriving DecidableEq, Repr

/-- `UserAccessRequest.type_id` and `GuestAccessRequest.type_id` (the
request-type classes live outside the access-service file); only their
distinctness matters for the duplicate check. -/
def userAccessRequestTypeId : String := "user-access-request"

/-- See `userAccessRequestTypeId`. -/
def guestAccessRequestTypeId : String := "guest-access-request"

/-- A stored access request, as seen by the duplicate-detection query:
its id, type discriminator, `created_by`, `topic` (the record pid), its
open/closed status, and the message carried in the payload. -/
structure AccessRequest where
  rid : Nat
  rtype : String
  created_by : Creator
  topic : String
  is_open : Bool
  message : String
deriving DecidableEq, Repr

/-- The request store queried by the deduplicator and extended by request
creation; `next_id` generates fresh request ids. -/
structure RequestStore where
  requests : List AccessRequest
  next_id : Nat
deriving DecidableEq, Repr

/-- The duplicate-detection query shared by both request flows: the stored
requests whose `created_by` structurally equals the given creator, whose
`topic` is the given record, of the given request type, and still open. -/
def open_requests_by (store : RequestStore) (creator : Creator)
    (record_id : String) (type_id : String) : List AccessRequest :=
  store.requests.filter (fun r =>
    r.created_by == creator && r.topic == record_id &&
      r.rtype == type_id && r.is_open)

/-- Outcome of `create_user_access_request`: the request store's final
state and the result.  When an exception is raised the store is unchanged
(the unit of work aborts before commit). -/
structure UserAccessRequestOutcome where
  store : RequestStore
  result : Except AccessError AccessRequest
deriving DecidableEq, Repr

/-- `RecordAccessService.create_user_access_request`.  The permission gate:
`require_permission(identity, "read")` must pass and
`require_permission(identity, "read_files")` must FAIL (`denied` is set by
catching `PermissionDeniedError`; when it did not fail, a fresh
`PermissionDeniedError` is raised).  Then the deduplicator collects the
stored requests with `created_by == {"user": str(identity.id)}`,
`topic == {"record": id_}`, type `UserAccessRequest.type_id` and still
open, and raises `DuplicateAccessRequestError` with their ids when any
exist.  Creation and immediate submission through the request-workflow
subsystem are modelled from the spec ("Creates the request, then
immediately submits it"): a new, still-open request by this user for this
record is appended to the store. -/
def create_user_access_request (identity_id : String)
    (can_read can_read_files : Bool) (record_id : String) (message : String)
    (store : RequestStore) : UserAccessRequestOutcome :=
  if !can_read then
    ⟨store, .error .permissionDenied⟩
  else
    -- `denied` records whether the "read_files" permission check failed
    let denied := !can_read_files
    if !denied then
      ⟨store, .error .permissionDenied⟩
    else
      let dup_requests :=
        open_requests_by store (.user identity_id) record_id
          userAccessRequestTypeId
      if !dup_requests.isEmpty then
        ⟨store,
          .error (.duplicateAccessRequest
            (dup_requests.map (fun r => toString r.rid)))⟩
      else
        let request : AccessRequest :=
          { rid := store.next_id
            rtype := userAccessRequestTypeId
            created_by := .user identity_id
            topic := record_id
            is_open := true
            message := message }
        ⟨{ requests := store.requests ++ [request]
           next_id := store.next_id + 1 },
          .ok request⟩

/-- A guest access-request token (`AccessRequestToken`, whose model class
lives outside the access-service file): email, full name, message, the pid
of the record, and the instant at which its shelf life ends. -/
structure AccessRequestToken where
  token : String
  email : String
  full_name : String
  message : String
  record_pid : String
  expires_at : Int
deriving DecidableEq, Repr

/-- Modelled from the spec: `AccessRequestToken.get_by_token` resolves a
token string to the stored token, and the token "expires and becomes
unresolvable" once past its shelf life — so it returns the first stored
token with a matching string that is still within its shelf life, and
nothing otherwise. -/
def get_by_token (now : Int) (tokens : List AccessRequestToken)
    (token : String) : Option AccessRequestToken :=
  tokens.find? (fun t => t.token == token && decide (now < t.expires_at))

/-- Outcome of `create_guest_access_request`: the final token store and
request store, and the result — `.ok none` is the silent no-op for an
unknown/expired token, `.ok (some request)` a successful redemption. -/
structure GuestAccessRequestOutcome where
  tokens : List AccessRequestToken
  store : RequestStore
  result : Except AccessError (Option AccessRequest)
deriving DecidableEq, Repr

/-- `RecordAccessService.create_guest_access_request`.  Authenticated
identities are rejected with `PermissionDeniedError`; an unresolvable
token returns `None` (silent no-op); the deduplicator matches stored
requests by `created_by == {"email": access_token.email}`,
`topic == {"record": access_token.record_pid}`, guest type and open
status; then `access_token.delete()` removes the token BEFORE the request
is created and submitted (creation/submission through the request-workflow
subsystem is modelled from the spec, as for the user flow: a new, open,
guest request by this email for this record). -/
def create_guest_access_request (is_authenticated : Bool) (now : Int)
    (token : String) (tokens : List AccessRequestToken)
    (store : RequestStore) : GuestAccessRequestOutcome :=
  if is_authenticated then
    ⟨tokens, store, .error .permissionDenied⟩
  else
    match get_by_token now tokens token with
    | none => ⟨tokens, store, .ok none⟩
    | some access_token =>
      let dup_requests :=
        open_requests_by store (.email access_token.email)
          access_token.record_pid guestAccessRequestTypeId
      if !dup_requests.isEmpty then
        ⟨tokens, store,
          .error (.duplicateAccessRequest
            (dup_requests.map (fun r => toString r.rid)))⟩
      else
        let tokens' := tokens.erase access_token
        let request : AccessRequest :=
          { rid := store.next_id
            rtype := guestAccessRequestTypeId
            created_by := .email access_token.email
            topic := access_token.record_pid
            is_open := true
            message := access_token.message }
        ⟨tokens',
          { requests := store.requests ++ [request]
            next_id := store.next_id + 1 },
          .ok (some request)⟩

/-! ## Characterisations of the expiration validator -/

/-- On a specified instant, the validator first applies the future check,
then (for updates) the extension check against the link's current
expiration. -/
lemma validate_some_spec (now t : Int) (link : SecretLink) :
    validate_secret_link_expires_at now (some t) true (some link) =
      if t < now then .error .mustBeFuture
      else
        match link.expires_at with
        | some o => if o < t then .error .cannotPostpone else .ok (some t)
        | none => .ok (some t) := by
  by_cases ht : t < now
  · simp [validate_secret_link_expires_at, ht]
  · cases ho : link.expires_at with
    | none => simp [validate_secret_link_expires_at, ht, ho]
    | some o =>
      by_cases hot : o < t <;>
        simp [validate_secret_link_expires_at, ht, ho, hot]

/-- An explicitly-null instant is rejected exactly when the link currently
has an expiration (removal would increase validity). -/
lemma validate_null_spec (now : Int) (link : SecretLink) :
    validate_secret_link_expires_at now none true (some link) =
      if link.expires_at.isSome then .error .cannotPostpone
      else .ok none := by
  cases ho : link.expires_at <;>
    simp [validate_secret_link_expires_at, ho]

/-- An omitted `expires_at` always validates (patch no-op). -/
lemma validate_unspecified_spec (now : Int) (link : SecretLink) :
    validate_secret_link_expires_at now none false (some link) = .ok none := by
  simp [validate_secret_link_expires_at]

/-- On creation (no existing link) only the future check applies. -/
lemma validate_create_spec (now : Int) (ea : Option Int) :
    validate_secret_link_expires_at now ea true none =
      match ea with
      | some t => if t < now then .error .mustBeFuture else .ok (some t)
      | none => .ok none := by
  cases ea with
  | none => simp [validate_secret_link_expires_at]
  | some t =>
    by_cases ht : t < now <;> simp [validate_secret_link_expires_at, ht]

/-! ## C1: rejection policy of `update_secret_link` for `expires_at` -/

/-- C1 counterexample: on a link whose current expiration is instant 0, an
update setting `expires_at` to instant 1 — strictly later than the link's
current expiration but strictly in the past at `now = 5` — is rejected with
the "must be in the future" `ValidationError`, not the "cannot postpone
expiration" one the claim names for every such update. -/
theorem update_secret_link_postpone_cex :
    update_secret_link 5 ⟨[⟨"L", "view", none, "", some 0⟩], []⟩ "L"
        ⟨none, some (some 1), none⟩ =
      .error (.validation .mustBeFuture) ∧
    ValidationKind.mustBeFuture ≠ ValidationKind.cannotPostpone := by
  decide

/-- C1 (amended): for every existing secret link, `update_secret_link`
rejects with the "cannot postpone expiration" `ValidationError` any update
that explicitly sets `expires_at` to null when the link previously had an
expiration; an update setting `expires_at` strictly later than the link's
current expiration is rejected with "cannot postpone expiration" when the
new instant is not in the past, and with "must be in the future" when it
is.  Updates that set an earlier-or-equal expiration, omit `expires_at`
entirely, or set a fresh expiration on a link that had none, are never
rejected with "cannot postpone expiration". -/
theorem update_secret_link_postpone_policy
    (now : Int) (parent : Parent) (link_id : String) (link_idx : Nat)
    (link : SecretLink) (data : SecretLinkUpdatePayload)
    (hres : resolve_link parent link_id = some (link_idx, link)) :
    (data.expires_at = some none → link.expires_at.isSome →
      update_secret_link now parent link_id data =
        .error (.validation .cannotPostpone)) ∧
    (∀ t o, data.expires_at = some (some t) → link.expires_at = some o →
      o < t →
      update_secret_link now parent link_id data =
        .error (.validation
          (if t < now then .mustBeFuture else .cannotPostpone))) ∧
    ((data.expires_at = none ∨
        (∃ t o, data.expires_at = some (some t) ∧ link.expires_at = some o ∧
          t ≤ o) ∨
        link.expires_at = none) →
      update_secret_link now parent link_id data ≠
        .error (.validation .cannotPostpone)) := by
  refine ⟨?_, ?_, ?_⟩
  · intro hd hl
    simp [update_secret_link, hres, hd, validate_null_spec, hl]
  · intro t o hd ho hot
    by_cases ht : t < now <;>
      simp [update_secret_link, hres, hd, validate_some_spec, ho, hot, ht]
  · rintro (hd | ⟨t, o, hd, ho, hto⟩ | hl)
    · simp [update_secret_link, hres, hd, validate_unspecified_spec]
    · by_cases ht : t < now <;>
        simp [update_secret_link, hres, hd, validate_some_spec, ho, ht,
          Int.not_lt.mpr hto]
    · cases hd : data.expires_at with
      | none => simp [update_secret_link, hres, hd, validate_unspecified_spec]
      | some ea =>
        cases ea with
        | none => simp [update_secret_link, hres, hd, validate_null_spec, hl]
        | some t =>
          by_cases ht : t < now <;>
            simp [update_secret_link, hres, hd, validate_some_spec, hl, ht]

/-- C1 witness: removing the expiration of a link that expires at instant
10 is rejected with "cannot postpone expiration". -/
theorem update_secret_link_postpone_policy_witness :
    update_secret_link 5 ⟨[⟨"L", "view", none, "", some 10⟩], []⟩ "L"
        ⟨none, some none, none⟩ =
      .error (.validation .cannotPostpone) :=
  (update_secret_link_postpone_policy 5
    ⟨[⟨"L", "view", none, "", some 10⟩], []⟩ "L" 0
    ⟨"L", "view", none, "", some 10⟩ ⟨none, some none, none⟩
    (by decide)).1 rfl rfl

/-! ## C2: `update_secret_link` never extends an existing expiration -/

/-- C2 counterexample: a link stored WITHOUT an expiration receives one
through `update_secret_link` (the update succeeds and the resulting link
carries `expires_at = 10`), contradicting the claim that only a newly
created link may receive an expiration. -/
theorem update_secret_link_introduces_cex :
    update_secret_link 5 ⟨[⟨"L", "view", none, "", none⟩], []⟩ "L"
        ⟨none, some (some 10), none⟩ =
      .ok (⟨[⟨"L", "view", none, "", some 10⟩], []⟩,
        ⟨"L", "view", none, "", some 10⟩) ∧
    (⟨"L", "view", none, "", none⟩ : SecretLink).expires_at = none := by
  decide

/-- C2 (amended): for every secret link that currently has an expiration,
a successful `update_secret_link` never results in an `expires_at` strictly
later than the one stored before the update (the result still has an
expiration, and it is at most the old one).  A link without an expiration
may, however, receive a fresh one through an update. -/
theorem update_secret_link_never_extends
    (now : Int) (parent : Parent) (link_id : String) (link_idx : Nat)
    (link : SecretLink) (data : SecretLinkUpdatePayload) (o : Int)
    (parent' : Parent) (link' : SecretLink)
    (hres : resolve_link parent link_id = some (link_idx, link))
    (ho : link.expires_at = some o)
    (hok : update_secret_link now parent link_id data =
      .ok (parent', link')) :
    link'.expires_at.isSome = true ∧
      ∀ o', link'.expires_at = some o' → o' ≤ o := by
  have hE : ∃ v, link'.expires_at = some v ∧ v ≤ o := by
    simp only [update_secret_link, hres] at hok
    cases hd : data.expires_at with
    | none =>
      rw [hd] at hok
      simp [validate_unspecified_spec] at hok
      exact ⟨o, by simp [← hok.2, ho], le_refl o⟩
    | some ea =>
      cases ea with
      | none =>
        rw [hd] at hok
        simp [validate_null_spec, ho] at hok
      | some t =>
        rw [hd] at hok
        by_cases ht : t < now
        · simp [validate_some_spec, ht] at hok
        · by_cases hot : o < t
          · simp [validate_some_spec, ht, ho, hot] at hok
          · simp [validate_some_spec, ht, ho, hot] at hok
            exact ⟨t, by simp [← hok.2], Int.not_lt.mp hot⟩
  obtain ⟨v, hv, hvle⟩ := hE
  refine ⟨by simp [hv], fun o' h => ?_⟩
  rw [hv] at h
  have := Option.some.inj h
  omega

/-- C2 witness: updating a link expiring at instant 10 down to instant 7
yields a link that still expires, no later than 10. -/
theorem update_secret_link_never_extends_witness :
    (⟨"L", "view", none, "", some 7⟩ : SecretLink).expires_at.isSome =
      true ∧ (7 : Int) ≤ 10 :=
  ⟨(update_secret_link_never_extends 5
      ⟨[⟨"L", "view", none, "", some 10⟩], []⟩ "L" 0
      ⟨"L", "view", none, "", some 10⟩ ⟨none, some (some 7), none⟩ 10
      ⟨[⟨"L", "view", none, "", some 7⟩], []⟩
      ⟨"L", "view", none, "", some 7⟩ (by decide) rfl (by decide)).1,
    (update_secret_link_never_extends 5
      ⟨[⟨"L", "view", none, "", some 10⟩], []⟩ "L" 0
      ⟨"L", "view", none, "", some 10⟩ ⟨none, some (some 7), none⟩ 10
      ⟨[⟨"L", "view", none, "", some 7⟩], []⟩
      ⟨"L", "view", none, "", some 7⟩ (by decide) rfl (by decide)).2 7 rfl⟩

/-! ## C3: the future check on supplied `expires_at` values -/

/-- C3 counterexample: an `expires_at` exactly equal to "now" (instant 5)
is accepted by `create_secret_link` although it is not strictly later than
the current time — the code's check is `expires_at < now`, so equality
passes. -/
theorem expires_at_now_accepted_cex :
    (create_secret_link 5 ⟨[], []⟩ true ["view"] "N"
        ⟨some "view", none, none, some 5⟩).result =
      .ok ⟨"N", "view", none, "", some 5⟩ ∧
    ¬(5 : Int) < 5 := by
  decide

/-- C3 (amended): every `expires_at` value accepted (not rejected with the
"must be in the future" `ValidationError`) by `create_secret_link` or
`update_secret_link` is at least the current time at validation time
(equality with "now" is accepted); any supplied `expires_at` strictly
earlier than "now" is rejected. -/
theorem expires_at_accepted_iff_not_past
    (now : Int) (parent : Parent) (has_record : Bool)
    (allowed_levels : List String) (new_link_id : String)
    (cdata : SecretLinkCreatePayload) (udata : SecretLinkUpdatePayload)
    (link_id : String) (link_idx : Nat) (link : SecretLink) (t : Int)
    (hres : resolve_link parent link_id = some (link_idx, link)) :
    (cdata.expires_at = some t → t < now →
      (create_secret_link now parent has_record allowed_levels new_link_id
          cdata).result = .error (.validation .mustBeFuture)) ∧
    (∀ lnk, cdata.expires_at = some t →
      (create_secret_link now parent has_record allowed_levels new_link_id
          cdata).result = .ok lnk → now ≤ t) ∧
    (udata.expires_at = some (some t) → t < now →
      update_secret_link now parent link_id udata =
        .error (.validation .mustBeFuture)) ∧
    (∀ parent' link', udata.expires_at = some (some t) →
      update_secret_link now parent link_id udata = .ok (parent', link') →
      now ≤ t) := by
  refine ⟨?_, ?_, ?_, ?_⟩
  · intro hd ht
    simp [create_secret_link, hd, validate_create_spec, ht]
  · intro lnk hd hok
    by_cases ht : t < now
    · simp [create_secret_link, hd, validate_create_spec, ht] at hok
    · exact Int.not_lt.mp ht
  · intro hd ht
    simp [update_secret_link, hres, hd, validate_some_spec, ht]
  · intro parent' link' hd hok
    by_cases ht : t < now
    · simp [update_secret_link, hres, hd, validate_some_spec, ht] at hok
    · exact Int.not_lt.mp ht

/-- C3 witness: a supplied `expires_at` of 3 with "now" at 5 is rejected
with "must be in the future" at creation. -/
theorem expires_at_accepted_iff_not_past_witness :
    (create_secret_link 5 ⟨[⟨"L", "view", none, "", some 10⟩], []⟩ true
        ["view"] "N" ⟨some "view", none, none, some 3⟩).result =
      .error (.validation .mustBeFuture) :=
  (expires_at_accepted_iff_not_past 5
    ⟨[⟨"L", "view", none, "", some 10⟩], []⟩ true ["view"] "N"
    ⟨some "view", none, none, some 3⟩ ⟨none, none, none⟩ "L" 0
    ⟨"L", "view", none, "", some 10⟩ 3 (by decide)).1 rfl (by decide)

/-! ## C4: the inverted permission gate of `create_user_access_request` -/

/-- C4: an identity holding both "read" and "read_files" permission on the
record fails `create_user_access_request` with `PermissionDeniedError` and
no request is created (the store is unchanged); the operation gets past the
permission gate exactly for identities that have "read" but lack
"read_files". -/
theorem create_user_access_request_permission_gate
    (identity_id : String) (can_read can_read_files : Bool)
    (record_id message : String) (store : RequestStore) :
    (can_read = true → can_read_files = true →
      create_user_access_request identity_id can_read can_read_files
        record_id message store = ⟨store, .error .permissionDenied⟩) ∧
    ((create_user_access_request identity_id can_read can_read_files
        record_id message store).result ≠ .error .permissionDenied ↔
      (can_read = true ∧ can_read_files = false)) := by
  constructor
  · intro h1 h2
    simp [create_user_access_request, h1, h2]
  · cases can_read <;> cases can_read_files <;>
      simp [create_user_access_request]
    split <;> simp

/-- C4 witness: an identity with both permissions is denied and the store
stays empty. -/
theorem create_user_access_request_permission_gate_witness :
    create_user_access_request "u1" true true "r1" "msg" ⟨[], 0⟩ =
      ⟨⟨[], 0⟩, .error .permissionDenied⟩ :=
  (create_user_access_request_permission_gate "u1" true true "r1" "msg"
    ⟨[], 0⟩).1 rfl rfl

/-! ## C5: duplicate detection for user access requests -/

/-- C5: if an open user-access-request by the same user for the same record
already exists, `create_user_access_request` fails with
`DuplicateAccessRequestError` carrying the ids of the colliding open
requests (and the store is unchanged); when no matching request is still
open, a new open request is created and appended. -/
theorem create_user_access_request_dedup
    (identity_id record_id message : String) (store : RequestStore) :
    (∀ r ∈ store.requests, r.created_by = Creator.user identity_id →
      r.topic = record_id → r.rtype = userAccessRequestTypeId →
      r.is_open = true →
      create_user_access_request identity_id true false record_id message
          store =
        ⟨store, .error (.duplicateAccessRequest
          ((open_requests_by store (.user identity_id) record_id
              userAccessRequestTypeId).map (fun q => toString q.rid)))⟩ ∧
      toString r.rid ∈ (open_requests_by store (.user identity_id)
          record_id userAccessRequestTypeId).map (fun q => toString q.rid)) ∧
    ((∀ r ∈ store.requests, ¬(r.created_by = Creator.user identity_id ∧
        r.topic = record_id ∧ r.rtype = userAccessRequestTypeId ∧
        r.is_open = true)) →
      create_user_access_request identity_id true false record_id message
          store =
        ⟨⟨store.requests ++ [⟨store.next_id, userAccessRequestTypeId,
            .user identity_id, record_id, true, message⟩],
          store.next_id + 1⟩,
          .ok ⟨store.next_id, userAccessRequestTypeId, .user identity_id,
            record_id, true, message⟩⟩) := by
  constructor
  · intro r hr h1 h2 h3 h4
    have hmem : r ∈ open_requests_by store (.user identity_id) record_id
        userAccessRequestTypeId := by
      simp [open_requests_by, List.mem_filter, hr, h1, h2, h3, h4]
    have hne : (open_requests_by store (.user identity_id) record_id
        userAccessRequestTypeId) ≠ [] := List.ne_nil_of_mem hmem
    refine ⟨?_, List.mem_map_of_mem _ hmem⟩
    simp [create_user_access_request, List.isEmpty_eq_false.mpr hne]
  · intro hnone
    have hnil : open_requests_by store (.user identity_id) record_id
        userAccessRequestTypeId = [] := by
      rw [open_requests_by, List.filter_eq_nil_iff]
      intro r hr
      have := hnone r hr
      simp only [Bool.and_eq_true, beq_iff_eq] at *
      tauto
    simp [create_user_access_request, hnil]

/-- C5 witness: with one open user request for ("u1", "r1") in the store, a
second request by "u1" for "r1" fails with a duplicate error listing the
first request's id. -/
theorem create_user_access_request_dedup_witness :
    create_user_access_request "u1" true false "r1" "msg"
        ⟨[⟨0, userAccessRequestTypeId, .user "u1", "r1", true, "m0"⟩], 1⟩ =
      ⟨⟨[⟨0, userAccessRequestTypeId, .user "u1", "r1", true, "m0"⟩], 1⟩,
        .error (.duplicateAccessRequest
          ((open_requests_by
              ⟨[⟨0, userAccessRequestTypeId, .user "u1", "r1", true,
                "m0"⟩], 1⟩ (.user "u1") "r1" userAccessRequestTypeId).map
            (fun q => toString q.rid)))⟩ ∧
    toString (0 : Nat) ∈ (open_requests_by
        ⟨[⟨0, userAccessRequestTypeId, .user "u1", "r1", true, "m0"⟩], 1⟩
        (.user "u1") "r1" userAccessRequestTypeId).map
      (fun q => toString q.rid) :=
  (create_user_access_request_dedup "u1" "r1" "msg"
    ⟨[⟨0, userAccessRequestTypeId, .user "u1", "r1", true, "m0"⟩], 1⟩).1
    ⟨0, userAccessRequestTypeId, .user "u1", "r1", true, "m0"⟩
    (by simp) rfl rfl rfl rfl

/-! ## C6: guest-token redemption is single-use and probe-silent -/

/-- C6: `create_guest_access_request` returns null (a no-op, not an error)
when the supplied token is unknown or expired, leaving both stores
untouched; on a valid token (unique for its token string, no colliding
open guest request) the request is created and the token is deleted, so a
second redemption of the same token — against any later request-store
state — returns null rather than raising an error. -/
theorem create_guest_access_request_redemption
    (now : Int) (token : String) (tokens : List AccessRequestToken)
    (store : RequestStore) (tok : AccessRequestToken) :
    (get_by_token now tokens token = none →
      create_guest_access_request false now token tokens store =
        ⟨tokens, store, .ok none⟩) ∧
    (get_by_token now tokens token = some tok → tokens.Nodup →
      (∀ t ∈ tokens, t.token = token → t = tok) →
      open_requests_by store (.email tok.email) tok.record_pid
          guestAccessRequestTypeId = [] →
      create_guest_access_request false now token tokens store =
        ⟨tokens.erase tok,
          ⟨store.requests ++ [⟨store.next_id, guestAccessRequestTypeId,
            .email tok.email, tok.record_pid, true, tok.message⟩],
            store.next_id + 1⟩,
          .ok (some ⟨store.next_id, guestAccessRequestTypeId,
            .email tok.email, tok.record_pid, true, tok.message⟩)⟩ ∧
      (∀ store' : RequestStore,
        create_guest_access_request false now token (tokens.erase tok)
          store' = ⟨tokens.erase tok, store', .ok none⟩)) := by
  constructor
  · intro hnone
    simp [create_guest_access_request, hnone]
  · intro hfind hnodup huniq hnodup_req
    have herased : get_by_token now (tokens.erase tok) token = none := by
      rw [get_by_token, List.find?_eq_none]
      intro t ht hpred
      simp only [Bool.and_eq_true, beq_iff_eq, decide_eq_true_eq] at hpred
      have : t = tok := huniq t (List.mem_of_mem_erase ht) hpred.1
      exact hnodup.not_mem_erase (this ▸ ht)
    refine ⟨?_, fun store' => by simp [create_guest_access_request, herased]⟩
    simp [create_guest_access_request, hfind, hnodup_req]

/-- C6 witness: redeeming a stored, unexpired token succeeds, deletes the
token, creates the guest request — and a second redemption of the same
token against the resulting state is a null no-op. -/
theorem create_guest_access_request_redemption_witness :
    create_guest_access_request false 5 "tok"
        [⟨"tok", "g@x.org", "G", "hi", "r1", 9⟩] ⟨[], 0⟩ =
      ⟨[⟨"tok", "g@x.org", "G", "hi", "r1", 9⟩].erase
          ⟨"tok", "g@x.org", "G", "hi", "r1", 9⟩,
        ⟨[⟨0, guestAccessRequestTypeId, .email "g@x.org", "r1", true,
          "hi"⟩], 1⟩,
        .ok (some ⟨0, guestAccessRequestTypeId, .email "g@x.org", "r1",
          true, "hi"⟩)⟩ ∧
    create_guest_access_request false 5 "tok"
        ([⟨"tok", "g@x.org", "G", "hi", "r1", 9⟩].erase
          ⟨"tok", "g@x.org", "G", "hi", "r1", 9⟩)
        ⟨[⟨0, guestAccessRequestTypeId, .email "g@x.org", "r1", true,
          "hi"⟩], 1⟩ =
      ⟨[⟨"tok", "g@x.org", "G", "hi", "r1", 9⟩].erase
          ⟨"tok", "g@x.org", "G", "hi", "r1", 9⟩,
        ⟨[⟨0, guestAccessRequestTypeId, .email "g@x.org", "r1", true,
          "hi"⟩], 1⟩, .ok none⟩ :=
  ⟨((create_guest_access_request_redemption 5 "tok"
      [⟨"tok", "g@x.org", "G", "hi", "r1", 9⟩] ⟨[], 0⟩
      ⟨"tok", "g@x.org", "G", "hi", "r1", 9⟩).2 rfl (by decide) (by decide)
      rfl).1,
    ((create_guest_access_request_redemption 5 "tok"
      [⟨"tok", "g@x.org", "G", "hi", "r1", 9⟩] ⟨[], 0⟩
      ⟨"tok", "g@x.org", "G", "hi", "r1", 9⟩).2 rfl (by decide) (by decide)
      rfl).2
      ⟨[⟨0, guestAccessRequestTypeId, .email "g@x.org", "r1", true,
        "hi"⟩], 1⟩⟩

/-! ## C7: bounds checking of `read_grant` and `delete_grant` -/

/-- C7: for a parent with a grant sequence of length n, `read_grant(i)` and
`delete_grant(i)` raise the not-found `LookupError` exactly when i is
outside [0, n); inside the range, `read_grant` returns the grant stored at
position i, and `delete_grant` removes exactly that position (the sequence
becomes the part before i followed by the part after i, one element
shorter). -/
theorem grant_index_bounds (parent : Parent) (grant_id : Int) :
    (¬(0 ≤ grant_id ∧ grant_id < (parent.grants.length : Int)) →
      read_grant parent grant_id =
        .error (.lookupError (toString grant_id)) ∧
      delete_grant parent grant_id =
        .error (.lookupError (toString grant_id))) ∧
    (0 ≤ grant_id → grant_id < (parent.grants.length : Int) →
      (∀ grant, parent.grants.get? grant_id.toNat = some grant →
        read_grant parent grant_id = .ok grant) ∧
      delete_grant parent grant_id =
        .ok ⟨parent.links, parent.grants.take grant_id.toNat ++
          parent.grants.drop (grant_id.toNat + 1)⟩ ∧
      (parent.grants.eraseIdx grant_id.toNat).length + 1 =
        parent.grants.length) := by
  constructor
  · intro h
    constructor <;> simp [read_grant, delete_grant, h]
  · intro h0 hlt
    have hnat : grant_id.toNat < parent.grants.length := by omega
    refine ⟨?_, ?_, ?_⟩
    · intro grant hg
      rw [List.get?_eq_getElem?] at hg
      obtain ⟨h, rfl⟩ := List.getElem?_eq_some_iff.mp hg
      simp [read_grant, pyGet, h0, hlt]
    · simp [delete_grant, h0, hlt, List.eraseIdx_eq_take_drop_succ]
    · rw [List.length_eraseIdx_of_lt hnat]
      omega

/-- C7 witness: on a one-grant parent, index 5 is rejected as not-found by
both operations, index 0 reads the stored grant. -/
theorem grant_index_bounds_witness :
    (read_grant ⟨[], [⟨"user", "1", "view", none⟩]⟩ 5 =
        .error (.lookupError (toString (5 : Int))) ∧
      delete_grant ⟨[], [⟨"user", "1", "view", none⟩]⟩ 5 =
        .error (.lookupError (toString (5 : Int)))) ∧
    read_grant ⟨[], [⟨"user", "1", "view", none⟩]⟩ 0 =
      .ok ⟨"user", "1", "view", none⟩ :=
  ⟨(grant_index_bounds ⟨[], [⟨"user", "1", "view", none⟩]⟩ 5).1 (by decide),
    ((grant_index_bounds ⟨[], [⟨"user", "1", "view", none⟩]⟩ 0).2
      (by decide) (by decide)).1 ⟨"user", "1", "view", none⟩ rfl⟩

/-! ## C8: index shift after `delete_grant` -/

/-- C8: for every valid index i into a parent's grant sequence, performing
`delete_grant(i)` and then `read_grant(i)` returns the grant that was
previously stored at index i+1 (trailing indices shift down), or raises the
not-found `LookupError` when i was the last index before the deletion. -/
theorem delete_then_read_shifts
    (parent : Parent) (grant_id : Int) (parent' : Parent)
    (h0 : 0 ≤ grant_id) (hlt : grant_id < (parent.grants.length : Int))
    (hdel : delete_grant parent grant_id = .ok parent') :
    (∀ next, parent.grants.get? (grant_id.toNat + 1) = some next →
      read_grant parent' grant_id = .ok next) ∧
    (grant_id = (parent.grants.length : Int) - 1 →
      read_grant parent' grant_id =
        .error (.lookupError (toString grant_id))) := by
  rw [delete_grant, if_pos ⟨h0, hlt⟩] at hdel
  injection hdel with hdel
  subst hdel
  have hnat : grant_id.toNat < parent.grants.length := by omega
  have hlen : (parent.grants.eraseIdx grant_id.toNat).length =
      parent.grants.length - 1 := List.length_eraseIdx_of_lt hnat
  constructor
  · intro next hnext
    have hlen2 : grant_id.toNat + 1 < parent.grants.length := by
      obtain ⟨h, _⟩ := List.get?_eq_some.mp hnext
      exact h
    have hcond : 0 ≤ grant_id ∧
        grant_id < (((parent.grants.eraseIdx grant_id.toNat).length :
          Nat) : Int) := by
      rw [hlen]
      exact ⟨h0, by omega⟩
    have hshift : (parent.grants.eraseIdx grant_id.toNat).get?
        grant_id.toNat = parent.grants.get? (grant_id.toNat + 1) := by
      rw [List.get?_eq_getElem?, List.get?_eq_getElem?,
        List.getElem?_eraseIdx_of_ge _ _ _ (le_refl _)]
    simp only [read_grant, pyGet]
    rw [if_pos hcond, if_pos hcond, hshift, hnext]
  · intro hlast
    rw [read_grant, if_neg]
    rw [hlen]
    omega

/-- C8 witness: deleting index 0 of a two-grant sequence and reading index
0 gives the grant formerly at index 1; deleting index 1 (the last) of the
result and reading index 1 is not-found. -/
theorem delete_then_read_shifts_witness :
    read_grant ⟨[], [⟨"user", "2", "view", none⟩]⟩ 0 =
      .ok ⟨"user", "2", "view", none⟩ ∧
    read_grant ⟨[], [⟨"user", "1", "view", none⟩]⟩ 1 =
      .error (.lookupError (toString (1 : Int))) :=
  ⟨(delete_then_read_shifts
      ⟨[], [⟨"user", "1", "view", none⟩, ⟨"user", "2", "view", none⟩]⟩ 0
      ⟨[], [⟨"user", "2", "view", none⟩]⟩ (by decide) (by decide)
      (by decide)).1 ⟨"user", "2", "view", none⟩ rfl,
    (delete_then_read_shifts
      ⟨[], [⟨"user", "1", "view", none⟩, ⟨"user", "2", "view", none⟩]⟩ 1
      ⟨[], [⟨"user", "1", "view", none⟩]⟩ (by decide) (by decide)
      (by decide)).2 (by decide)⟩

/-! ## C9: permission-level validation in `create_secret_link` -/

/-- C9 counterexample: a payload whose permission level "bogus" is not in
the allowed set but whose `expires_at` lies in the past is rejected with
the "must be in the future" `ValidationError` — the expiration check runs
first — not with the "invalid access permission level" one the claim names
for every payload with a disallowed level. -/
theorem create_secret_link_invalid_level_cex :
    (create_secret_link 5 ⟨[], []⟩ true ["view"] "N"
        ⟨some "bogus", none, none, some 0⟩).result =
      .error (.validation .mustBeFuture) ∧
    "bogus" ∉ ["view"] ∧
    ValidationKind.mustBeFuture ≠ ValidationKind.invalidPermissionLevel := by
  decide

/-- C9 (amended): `create_secret_link` fails with a `ValidationError` —
and the parent's link collection is unchanged, with no commit or reindex
registered on the unit of work — whenever the validated payload contains no
"permission" field.  Provided the supplied `expires_at` (if any) passes the
future check, which runs first, the error for a missing permission is
specifically "permission required", and a requested level outside the
allowed set fails with "invalid access permission level", again with the
parent unchanged and an empty unit of work. -/
theorem create_secret_link_permission_validation
    (now : Int) (parent : Parent) (has_record : Bool)
    (allowed_levels : List String) (new_link_id : String)
    (cdata : SecretLinkCreatePayload) :
    (cdata.permission = none →
      ∃ kind, create_secret_link now parent has_record allowed_levels
        new_link_id cdata = ⟨parent, [], .error (.validation kind)⟩) ∧
    ((∀ t, cdata.expires_at = some t → now ≤ t) →
      (cdata.permission = none →
        create_secret_link now parent has_record allowed_levels new_link_id
          cdata =
        ⟨parent, [], .error (.validation .permissionRequired)⟩) ∧
      (∀ p, cdata.permission = some p → p ∉ allowed_levels →
        create_secret_link now parent has_record allowed_levels new_link_id
          cdata =
        ⟨parent, [], .error (.validation .invalidPermissionLevel)⟩)) := by
  constructor
  · intro hp
    cases hd : cdata.expires_at with
    | none =>
      exact ⟨.permissionRequired,
        by simp [create_secret_link, hd, validate_create_spec, hp]⟩
    | some t =>
      by_cases ht : t < now
      · exact ⟨.mustBeFuture,
          by simp [create_secret_link, hd, validate_create_spec, ht]⟩
      · exact ⟨.permissionRequired,
          by simp [create_secret_link, hd, validate_create_spec, ht, hp]⟩
  · intro hfuture
    constructor
    · intro hp
      cases hd : cdata.expires_at with
      | none => simp [create_secret_link, hd, validate_create_spec, hp]
      | some t =>
        have ht : ¬ t < now := Int.not_lt.mpr (hfuture t hd)
        simp [create_secret_link, hd, validate_create_spec, ht, hp]
    · intro p hp hallow
      cases hd : cdata.expires_at with
      | none =>
        simp [create_secret_link, hd, validate_create_spec, hp,
          links_create, hallow]
      | some t =>
        have ht : ¬ t < now := Int.not_lt.mpr (hfuture t hd)
        simp [create_secret_link, hd, validate_create_spec, ht, hp,
          links_create, hallow]

/-- C9 witness: a payload with level "bogus" and a valid future expiration
is rejected with "invalid access permission level", the parent keeps its
empty link collection and the unit of work stays empty; a payload with no
permission field is rejected with "permission required" likewise. -/
theorem create_secret_link_permission_validation_witness :
    create_secret_link 5 ⟨[], []⟩ true ["view"] "N"
        ⟨some "bogus", none, none, some 9⟩ =
      ⟨⟨[], []⟩, [], .error (.validation .invalidPermissionLevel)⟩ ∧
    create_secret_link 5 ⟨[], []⟩ true ["view"] "N"
        ⟨none, none, none, some 9⟩ =
      ⟨⟨[], []⟩, [], .error (.validation .permissionRequired)⟩ :=
  ⟨((create_secret_link_permission_validation 5 ⟨[], []⟩ true ["view"] "N"
      ⟨some "bogus", none, none, some 9⟩).2
      (by intro t h; injection h with h; omega)).2 "bogus" rfl (by decide),
    ((create_secret_link_permission_validation 5 ⟨[], []⟩ true ["view"] "N"
      ⟨none, none, none, some 9⟩).2
      (by intro t h; injection h with h; omega)).1 rfl⟩

/-! ## C10: `update_grant` performs no bounds check -/

/-- C10: unlike `read_grant` and `delete_grant`, `update_grant` performs no
[0, n) bounds check on `grant_id`: for a negative `grant_id` with
-n ≤ grant_id < 0 it reads and replaces the grant at position
n + grant_id and reports success instead of not-found, and for
grant_id ≥ n the failure is the raw sequence subscripting error, not the
bounds-checked not-found `LookupError`. -/
theorem update_grant_unchecked_index
    (parent : Parent) (grant_id : Int) (st sid perm : String)
    (org : Option String) (subject_exists : String → String → Bool) :
    ((-(parent.grants.length : Int) ≤ grant_id ∧ grant_id < 0) →
      subject_exists st sid = true →
      (∀ old, parent.grants.get?
          ((parent.grants.length : Int) + grant_id).toNat = some old →
        pyGet parent.grants grant_id = .ok old) ∧
      update_grant parent grant_id ⟨some st, some sid, some perm, org⟩
          false subject_exists =
        .ok (⟨parent.links, parent.grants.set
            ((parent.grants.length : Int) + grant_id).toNat
            ⟨st, sid, perm, org⟩⟩,
          ⟨st, sid, perm, org⟩)) ∧
    ((parent.grants.length : Int) ≤ grant_id →
      ∀ data patch,
        update_grant parent grant_id data patch subject_exists =
          .error .indexError) := by
  constructor
  · intro hneg hsub
    have hnot0 : ¬(0 ≤ grant_id ∧
        grant_id < ((parent.grants.length : Nat) : Int)) := by omega
    have hidx : ((parent.grants.length : Int) + grant_id).toNat <
        parent.grants.length := by omega
    have hold := List.get?_eq_get hidx
    constructor
    · intro old hg
      simp only [pyGet]
      rw [if_neg hnot0, if_pos hneg, hg]
    · simp only [update_grant, pyGet]
      rw [if_neg hnot0, if_pos hneg, hold]
      simp [schema_grant_load, hsub, pySet, hnot0, hneg]
  · intro hge data patch
    have hnot0 : ¬(0 ≤ grant_id ∧
        grant_id < ((parent.grants.length : Nat) : Int)) := by omega
    have hnotneg : ¬(-((parent.grants.length : Nat) : Int) ≤ grant_id ∧
        grant_id < 0) := by omega
    simp only [update_grant, pyGet]
    rw [if_neg hnot0, if_neg hnotneg]

/-- C10 witness: on a two-grant sequence, `update_grant` at index -1
succeeds and replaces position 1, while index 2 fails with the raw index
error. -/
theorem update_grant_unchecked_index_witness :
    update_grant ⟨[], [⟨"user", "1", "view", none⟩,
          ⟨"user", "2", "view", none⟩]⟩ (-1)
        ⟨some "user", some "3", some "edit", none⟩ false
        (fun _ _ => true) =
      .ok (⟨[], [⟨"user", "1", "view", none⟩,
          ⟨"user", "2", "view", none⟩].set
            (((2 : Nat) : Int) + (-1)).toNat ⟨"user", "3", "edit", none⟩⟩,
        ⟨"user", "3", "edit", none⟩) ∧
    update_grant ⟨[], [⟨"user", "1", "view", none⟩,
          ⟨"user", "2", "view", none⟩]⟩ 2
        ⟨some "user", some "3", some "edit", none⟩ false
        (fun _ _ => true) =
      .error .indexError :=
  ⟨((update_grant_unchecked_index
      ⟨[], [⟨"user", "1", "view", none⟩, ⟨"user", "2", "view", none⟩]⟩
      (-1) "user" "3" "edit" none (fun _ _ => true)).1
      (by decide) rfl).2,
    (update_grant_unchecked_index
      ⟨[], [⟨"user", "1", "view", none⟩, ⟨"user", "2", "view", none⟩]⟩
      2 "user" "3" "edit" none (fun _ _ => true)).2 (by decide)
      ⟨some "user", some "3", some "edit", none⟩ false⟩

end RDMAccess
